import Mathlib

/-!
Shallow embedding of `TTS-prototype/main.py`: a CLI plus HTTP gateway that
forwards text-to-speech requests to a remote speech-synthesis provider.

Python dynamic values flowing through the program are modelled by `Json`;
Python truthiness by `pyTruthy`; `str()` by `pyStr`; `x or y` by
`pyOrJ` / `pyOrO`.  Collaborators (the `requests` transport, `json.loads`,
the filesystem and stdin) are passed in as explicit oracles.
-/

/-- JSON values, as produced by `json.loads`.  Numbers are modelled as
integers (no behaviour relevant here distinguishes fractional payloads). -/
inductive Json where
  | null
  | bool (b : Bool)
  | num (n : Int)
  | str (s : String)
  | arr (elems : List Json)
  | obj (fields : List (String × Json))

/-- Python truthiness of a JSON-derived value (`if x:`):
`None`, `False`, `0`, `""`, `[]` and `{}` are falsy. -/
def pyTruthy : Json → Bool
  | .null => false
  | .bool b => b
  | .num n => n != 0
  | .str s => s != ""
  | .arr elems => !elems.isEmpty
  | .obj fields => !fields.isEmpty

mutual

/-- Python `repr()` of a JSON-derived value (strings single-quoted,
`None` / `True` / `False` spelled the Python way).  Quote escaping inside
strings is not modelled; no behaviour proved here depends on it. -/
def pyRepr : Json → String
  | .null => "None"
  | .bool true => "True"
  | .bool false => "False"
  | .num n => toString n
  | .str s => "\x27" ++ s ++ "\x27"
  | .arr elems => "[" ++ pyReprList elems ++ "]"
  | .obj fields => "\x7b" ++ pyReprFields fields ++ "\x7d"

/-- Comma-separated `repr` of list elements. -/
def pyReprList : List Json → String
  | [] => ""
  | [v] => pyRepr v
  | v :: rest => pyRepr v ++ ", " ++ pyReprList rest

/-- Comma-separated `repr` of dict items. -/
def pyReprFields : List (String × Json) → String
  | [] => ""
  | [(k, v)] => "\x27" ++ k ++ "\x27: " ++ pyRepr v
  | (k, v) :: rest => "\x27" ++ k ++ "\x27: " ++ pyRepr v ++ ", " ++ pyReprFields rest

end

/-- Python `str()` of a JSON-derived value. -/
def pyStr (v : Json) : String :=
  match v with
  | .str s => s
  | v => pyRepr v

/-- Escape one character the way `json.dumps` does for the characters that
can occur in this program's messages. -/
def jsonEscapeChar (c : Char) : String :=
  if c = '\\' then "\\\\"
  else if c = '\"' then "\\\""
  else if c = '\n' then "\\n"
  else if c = '\t' then "\\t"
  else if c = '\r' then "\\r"
  else String.singleton c

/-- String-body escaping of `json.dumps`. -/
def jsonEscape (s : String) : String :=
  String.join (s.data.map jsonEscapeChar)

mutual

/-- Serialization of `json.dumps` with its default separators
(`", "` between items, `": "` after a key). -/
def jsonDump : Json → String
  | .null => "null"
  | .bool true => "true"
  | .bool false => "false"
  | .num n => toString n
  | .str s => "\"" ++ jsonEscape s ++ "\""
  | .arr elems => "[" ++ jsonDumpList elems ++ "]"
  | .obj fields => "\x7b" ++ jsonDumpFields fields ++ "\x7d"

/-- Comma-separated dump of array elements. -/
def jsonDumpList : List Json → String
  | [] => ""
  | [v] => jsonDump v
  | v :: rest => jsonDump v ++ ", " ++ jsonDumpList rest

/-- Comma-separated dump of object items. -/
def jsonDumpFields : List (String × Json) → String
  | [] => ""
  | [(k, v)] => "\"" ++ jsonEscape k ++ "\": " ++ jsonDump v
  | (k, v) :: rest => "\"" ++ jsonEscape k ++ "\": " ++ jsonDump v ++ ", " ++ jsonDumpFields rest

end

/-- The one-field JSON error envelope the gateway sends:
`{"error": msg}`. -/
def errObj (msg : String) : Json :=
  Json.obj [("error", Json.str msg)]

/-- `payload.get(k)` on a JSON object from `json.loads`.  A stored JSON
`null` loads as Python `None`, which `dict.get` also returns for an absent
key, so both collapse to `none`. -/
def pyGet (fields : List (String × Json)) (k : String) : Option Json :=
  match fields.lookup k with
  | some Json.null => none
  | some v => some v
  | none => none

/-- Python `a or b` where `a` is a `dict.get` result and `b` a plain value. -/
def pyOrJ (a : Option Json) (b : Json) : Json :=
  match a with
  | some v => if pyTruthy v then v else b
  | none => b

/-- Python `a or b` where both sides may be `None`. -/
def pyOrO (a : Option Json) (b : Option Json) : Option Json :=
  match a with
  | some v => if pyTruthy v then some v else b
  | none => b

/-- Python `a or b` on an optional string against a string default. -/
def pyOrStr (a : Option String) (b : String) : String :=
  match a with
  | some s => if s != "" then s else b
  | none => b

/-- Truthiness of an `Optional[str]` (`if args.x:`). -/
def strTruthy (a : Option String) : Bool :=
  match a with
  | some s => s != ""
  | none => false

/-- The whitespace set of Python's `str.strip()` (ASCII part). -/
def isPySpace (c : Char) : Bool :=
  c = ' ' || c = '\t' || c = '\n' || c = '\r' || c = '\x0b' || c = '\x0c'

/-- Python `str.strip()`: drop leading and trailing whitespace. -/
def pyStrip (s : String) : String :=
  ⟨((s.data.dropWhile isPySpace).reverse.dropWhile isPySpace).reverse⟩

/-- ASCII lower-casing of one character. -/
def pyLowerChar (c : Char) : Char :=
  if 'A' ≤ c && c ≤ 'Z' then Char.ofNat (c.toNat + 32) else c

/-- Python `str.lower()`.  Only ASCII letters change case; the program's
voice names and map keys are ASCII. -/
def pyLower (s : String) : String :=
  ⟨s.data.map pyLowerChar⟩

/-- Containment of `needle` in some suffix-aligned position of a list. -/
def listContains (needle : List Char) : List Char → Bool
  | [] => needle.isEmpty
  | c :: rest => needle.isPrefixOf (c :: rest) || listContains needle rest

/-- Python substring containment `needle in hay`. -/
def strContains (hay needle : String) : Bool :=
  listContains needle.data hay.data

/-- `str(payload.get(k) or "").strip()`, the gateway's field reader. -/
def jsonFieldStr (fields : List (String × Json)) (k : String) : String :=
  pyStrip (pyStr (pyOrJ (pyGet fields k) (Json.str "")))

/-- A provider voice dict as returned by `GET /voices`.  The fields the
program reads with `.get(...)` may each be absent. -/
structure Voice where
  name : Option String
  voice_id : Option String
  category : Option String
  deriving DecidableEq

/-- The `SystemExit` failures the CLI path can raise, with the data each
message carries. -/
inductive CLIError where
  /-- `No voice matched name query: {name_query!r}` -/
  | noMatch (query : String)
  /-- `Multiple voices matched. Be more specific or use --voice-id.`,
  followed by `print_voices(matches)`. -/
  | ambiguous (matched : List Voice)
  /-- `No voices returned. Check your ElevenLabs account.` -/
  | noVoices
  /-- `First voice is missing a voice_id.` -/
  | missingFirstVoiceId
  /-- `KeyError` from `pick_voice_by_name(...)["voice_id"]` on a voice
  dict lacking that key. -/
  | keyError (key : String)
  /-- `Provide --text, --text-file, or pipe text via stdin.` -/
  | noTextSource
  /-- `Invalid --voice-settings JSON: {exc}` -/
  | invalidVoiceSettings (raw : String)
  deriving DecidableEq

/-- The `argparse` namespace of `parse_args`.  Flags the CLI claims never
touch (`--list-voices`, `--serve`, host/port) select which top-level branch
runs and are handled by the callers of these functions. -/
structure CLIArgs where
  cors_origin : String
  voice_id : Option String
  voice_name : Option String
  text : Option String
  text_file : Option String
  model_id : Option String
  output_format : Option String
  output : String
  no_logging : Bool
  no_play : Bool
  voice_settings : Option String
  deriving DecidableEq

/-- The defaults `parse_args` assigns when a flag is not given. -/
def defaultArgs : CLIArgs where
  cors_origin := "*"
  voice_id := none
  voice_name := none
  text := none
  text_file := none
  model_id := none
  output_format := some "mp3_44100_128"
  output := "out.mp3"
  no_logging := false
  no_play := false
  voice_settings := none

/-- `pick_voice_by_name(voices, name_query)`: normalize the query with
`.strip().lower()`, keep the voices whose (lower-cased) name contains it,
then fail on zero or several matches and return the single match. -/
def pick_voice_by_name (voices : List Voice) (name_query : String) :
    Except CLIError Voice :=
  let query := pyLower (pyStrip name_query)
  let matched := voices.filter fun voice =>
    strContains (pyLower (pyOrStr voice.name "")) query
  match matched with
  | [] => .error (.noMatch name_query)
  | [voice] => .ok voice
  | _ => .error (.ambiguous matched)

/-- `resolve_voice_id(api_key, args)` for the CLI path.  The environment
variable read becomes the `env_voice_id` argument and the `list_voices`
fetch result becomes `catalog` (the fetch itself is the collaborator's
remote call).  The returned list collects the lines the function prints. -/
def resolve_voice_id (args : CLIArgs) (env_voice_id : Option String)
    (catalog : List Voice) : Except CLIError (String × List String) :=
  if strTruthy args.voice_id then .ok (args.voice_id.getD "", [])
  else if strTruthy env_voice_id then .ok (env_voice_id.getD "", [])
  else if strTruthy args.voice_name then
    match pick_voice_by_name catalog (args.voice_name.getD "") with
    | .error e => .error e
    | .ok voice =>
      match voice.voice_id with
      | some id => .ok (id, [])
      | none => .error (.keyError "voice_id")
  else
    match catalog with
    | [] => .error .noVoices
    | first :: _ =>
      let voice_id := pyOrStr first.voice_id ""
      let name := pyOrStr first.name "unknown"
      if voice_id = "" then .error .missingFirstVoiceId
      else .ok (voice_id,
        ["Using first available voice: " ++ name ++ " (" ++ voice_id ++ ")"])

/-- `resolve_text(args)`.  `fileContent` maps a `--text-file` path to the
file's contents; `stdin` is `some s` when stdin is not a tty. -/
def resolve_text (args : CLIArgs) (fileContent : String → String)
    (stdin : Option String) : Except CLIError String :=
  if strTruthy args.text then .ok (args.text.getD "")
  else if strTruthy args.text_file then
    .ok (pyStrip (fileContent (args.text_file.getD "")))
  else
    match stdin with
    | some s => .ok (pyStrip s)
    | none => .error .noTextSource

/-- The argument tuple of one `synthesize_bytes(...)` invocation.  The
optional arguments are dynamic values: the gateway forwards raw JSON body
fields, the CLI forwards strings. -/
structure SynthArgs where
  api_key : String
  voice_id : String
  text : String
  model_id : Option Json
  output_format : Option Json
  enable_logging : Bool
  voice_settings : Option Json

/-- The outbound HTTP call `synthesize_bytes` builds: the voice id
interpolated in the URL path, the headers, the query params and the JSON
body, each in insertion order. -/
structure ProviderRequest where
  url_voice_id : String
  headers : List (String × String)
  params : List (String × Json)
  payload : List (String × Json)

/-- The pure request-building part of `synthesize_bytes` (lines 144-166):
query params take `output_format` when truthy and `enable_logging=false`
exactly when logging is disabled; the JSON body takes `text` always and
`model_id` / `voice_settings` only when truthy. -/
def buildProviderRequest (a : SynthArgs) : ProviderRequest where
  url_voice_id := a.voice_id
  headers :=
    [("xi-api-key", a.api_key), ("Content-Type", "application/json"),
     ("Accept", "*/*")]
  params :=
    (match a.output_format with
     | some v => if pyTruthy v then [("output_format", v)] else []
     | none => []) ++
    (if a.enable_logging then [] else [("enable_logging", Json.str "false")])
  payload :=
    [("text", Json.str a.text)] ++
    (match a.model_id with
     | some v => if pyTruthy v then [("model_id", v)] else []
     | none => []) ++
    (match a.voice_settings with
     | some v => if pyTruthy v then [("voice_settings", v)] else []
     | none => [])

/-- What the provider transport reports back for one request: audio bytes
on a 2xx, else the status and the text `request_json_or_text` extracts. -/
inductive ProviderResult where
  | success (audio : List Nat)
  | failure (status : Nat) (body : String)

/-- The one-shot CLI flow of `main` (no `--list-voices`, no `--serve`),
up to and including the argument tuple it hands `synthesize_bytes`;
the second component collects the informational lines printed on the way.
`jsonLoads` is the `json.loads` collaborator for `--voice-settings`. -/
def cliRun (args : CLIArgs) (api_key : String) (env_voice_id : Option String)
    (catalog : List Voice) (fileContent : String → String)
    (stdin : Option String) (jsonLoads : String → Option Json) :
    Except CLIError (SynthArgs × List String) :=
  match resolve_voice_id args env_voice_id catalog with
  | .error e => .error e
  | .ok (voice_id, notes) =>
    match resolve_text args fileContent stdin with
    | .error e => .error e
    | .ok text =>
      let settings : Except CLIError (Option Json) :=
        if strTruthy args.voice_settings then
          match jsonLoads (args.voice_settings.getD "") with
          | some j => .ok (some j)
          | none => .error (.invalidVoiceSettings (args.voice_settings.getD ""))
        else .ok none
      match settings with
      | .error e => .error e
      | .ok voice_settings =>
        .ok (⟨api_key, voice_id, text, args.model_id.map Json.str,
              args.output_format.map Json.str, !args.no_logging,
              voice_settings⟩, notes)

/-- `ServerConfig` built in `serve` and read by every request handler. -/
structure ServerConfig where
  api_key : String
  default_voice_id : Option String
  voice_map : List (String × String)
  output_format : Option String
  model_id : Option String
  enable_logging : Bool
  cors_origin : String

/-- Body of an HTTP response the gateway writes. -/
inductive RespBody where
  | jsonBody (payload : Json)
  | audioBody (audio : List Nat)
  | empty

/-- An HTTP response: status, headers in the order sent, body. -/
structure HttpResponse where
  status : Nat
  headers : List (String × String)
  body : RespBody

/-- `_send_json`: serialize the payload, send the status plus content-type,
content-length and CORS headers, write the body. -/
def send_json (cfg : ServerConfig) (status : Nat) (payload : Json) :
    HttpResponse where
  status := status
  headers :=
    [("Content-Type", "application/json"),
     ("Content-Length", toString (jsonDump payload).utf8ByteSize),
     ("Access-Control-Allow-Origin", cfg.cors_origin)]
  body := .jsonBody payload

/-- `_send_audio`: a 200 with `audio/mpeg` content type, the byte length
and the CORS header. -/
def send_audio (cfg : ServerConfig) (audio : List Nat) : HttpResponse where
  status := 200
  headers :=
    [("Content-Type", "audio/mpeg"),
     ("Content-Length", toString audio.length),
     ("Access-Control-Allow-Origin", cfg.cors_origin)]
  body := .audioBody audio

/-- `do_OPTIONS`: a 204 carrying only the CORS preflight headers, for any
path, before the POST pipeline is ever consulted. -/
def do_OPTIONS (cfg : ServerConfig) : HttpResponse where
  status := 204
  headers :=
    [("Access-Control-Allow-Origin", cfg.cors_origin),
     ("Access-Control-Allow-Methods", "POST, OPTIONS"),
     ("Access-Control-Allow-Headers", "Content-Type")]
  body := .empty

/-- The gateway's speaker-name extraction (line 303):
`str(payload.get("name") or payload.get("speaker") or "").strip()`. -/
def gatewayName (fields : List (String × Json)) : String :=
  pyStrip (pyStr (pyOrJ (pyGet fields "name")
    (pyOrJ (pyGet fields "speaker") (Json.str ""))))

/-- The gateway's voice-id chain (lines 304-309): the stripped body
`voice_id` if non-empty, else the voice-map entry for the lower-cased
name, else the configured default (or `""`). -/
def gatewayVoiceId (cfg : ServerConfig) (fields : List (String × Json)) :
    String :=
  let name := gatewayName fields
  let voice_id0 := jsonFieldStr fields "voice_id"
  let voice_id1 :=
    if voice_id0 = "" then (cfg.voice_map.lookup (pyLower name)).getD ""
    else voice_id0
  if voice_id1 = "" then cfg.default_voice_id.getD "" else voice_id1

/-- The message of the gateway's resolution-failure 400. -/
def noVoiceResolvedMsg : String :=
  "No voice_id resolved. Provide voice_id, set ELEVENLABS_VOICE_ID, " ++
  "or map name via ELEVENLABS_VOICE_MAP."

/-- `voice_settings is not None and not isinstance(voice_settings, dict)`. -/
def badVoiceSettings (voice_settings : Option Json) : Bool :=
  match voice_settings with
  | some (Json.obj _) => false
  | some _ => true
  | none => false

/-- The body of `do_POST` from line 298 on, once the payload has parsed to
a dict: validate text, resolve the voice, validate `voice_settings`, call
`synthesize_bytes` and translate its `SystemExit` into a 502.  The second
component records every `synthesize_bytes` invocation made. -/
def handlePayload (cfg : ServerConfig)
    (provider : ProviderRequest → ProviderResult)
    (fields : List (String × Json)) : HttpResponse × List SynthArgs :=
  let text := jsonFieldStr fields "text"
  if text = "" then (send_json cfg 400 (errObj "Missing text"), [])
  else
    let voice_id := gatewayVoiceId cfg fields
    if voice_id = "" then (send_json cfg 400 (errObj noVoiceResolvedMsg), [])
    else
      let model_id := pyOrO (pyGet fields "model_id") (cfg.model_id.map Json.str)
      let output_format :=
        pyOrO (pyGet fields "output_format") (cfg.output_format.map Json.str)
      let voice_settings := pyGet fields "voice_settings"
      if badVoiceSettings voice_settings then
        (send_json cfg 400 (errObj "voice_settings must be an object"), [])
      else
        let a : SynthArgs :=
          ⟨cfg.api_key, voice_id, text, model_id, output_format,
           cfg.enable_logging, voice_settings⟩
        match provider (buildProviderRequest a) with
        | .success audio => (send_audio cfg audio, [a])
        | .failure status body =>
          (send_json cfg 502 (errObj
            ("TTS request failed (" ++ toString status ++ "): " ++ body)), [a])

/-- `do_POST`: route non-`/tts` paths to 404, read the body (an absent or
zero `Content-Length` gives the empty string, which is replaced by
`"{}"` before parsing), 400 on a parse failure, then hand the dict to the
pipeline.  `none` models the uncaught `AttributeError` a non-dict JSON
body raises. -/
def do_POST (cfg : ServerConfig)
    (provider : ProviderRequest → ProviderResult) (path : String)
    (raw : String) (jsonLoads : String → Option Json) :
    Option (HttpResponse × List SynthArgs) :=
  if path ≠ "/tts" then some (send_json cfg 404 (errObj "Not found"), [])
  else
    match jsonLoads (if raw = "" then "\x7b\x7d" else raw) with
    | none => some (send_json cfg 400 (errObj "Invalid JSON"), [])
    | some (Json.obj fields) => some (handlePayload cfg provider fields)
    | some _ => none

/-- The two HTTP methods the handler class implements; any other method is
answered by the `BaseHTTPRequestHandler` collaborator itself. -/
inductive HttpMethod where
  | OPTIONS
  | POST

/-- Dispatch of one request to the method handlers. -/
def handleRequest (cfg : ServerConfig)
    (provider : ProviderRequest → ProviderResult) (method : HttpMethod)
    (path : String) (raw : String) (jsonLoads : String → Option Json) :
    Option (HttpResponse × List SynthArgs) :=
  match method with
  | .OPTIONS => some (do_OPTIONS cfg, [])
  | .POST => do_POST cfg provider path raw jsonLoads

/-- The error message of a JSON error-envelope response, when the response
is one. -/
def errorMessage (r : HttpResponse) : Option String :=
  match r.body with
  | .jsonBody (Json.obj fields) =>
    match fields.lookup "error" with
    | some (Json.str msg) => some msg
    | _ => none
  | _ => none

/-- Every `synthesize_bytes` call recorded by the POST pipeline carries a
non-empty voice id and non-empty text: the pipeline returns before the
call whenever the stripped text or the resolved voice id is empty. -/
theorem handlePayload_calls (cfg : ServerConfig)
    (provider : ProviderRequest → ProviderResult)
    (fields : List (String × Json)) :
    ∀ a ∈ (handlePayload cfg provider fields).2,
      a.voice_id ≠ "" ∧ a.text ≠ "" := by
  intro a ha
  simp only [handlePayload] at ha
  split at ha
  · simp at ha
  next htext =>
    split at ha
    · simp at ha
    next hvid =>
      split at ha
      · simp at ha
      · split at ha <;>
          (simp only [List.mem_singleton] at ha
           subst ha
           exact ⟨hvid, htext⟩)

/-- Claim C1: for every POST /tts request the gateway resolves the voice
id by: (a) the (stripped) `voice_id` body field when non-empty, else
(b) the voice-map entry for the speaker name lower-cased and trimmed when
non-empty, else (c) the configured default voice id; when all three are
empty the handler answers 400 with a message instructing the caller to
supply one of them, and the provider is never called. -/
theorem gateway_voice_resolution_chain (cfg : ServerConfig)
    (provider : ProviderRequest → ProviderResult)
    (fields : List (String × Json)) :
    (jsonFieldStr fields "voice_id" ≠ "" →
      gatewayVoiceId cfg fields = jsonFieldStr fields "voice_id")
    ∧ (jsonFieldStr fields "voice_id" = "" →
        (cfg.voice_map.lookup (pyLower (gatewayName fields))).getD "" ≠ "" →
        gatewayVoiceId cfg fields =
          (cfg.voice_map.lookup (pyLower (gatewayName fields))).getD "")
    ∧ (jsonFieldStr fields "voice_id" = "" →
        (cfg.voice_map.lookup (pyLower (gatewayName fields))).getD "" = "" →
        gatewayVoiceId cfg fields = cfg.default_voice_id.getD "")
    ∧ (jsonFieldStr fields "text" ≠ "" → gatewayVoiceId cfg fields = "" →
        handlePayload cfg provider fields =
          (send_json cfg 400 (errObj noVoiceResolvedMsg), [])) := by
  refine ⟨fun h1 => ?_, fun h1 h2 => ?_, fun h1 h2 => ?_, fun ht h0 => ?_⟩
  · simp [gatewayVoiceId, h1]
  · simp [gatewayVoiceId, h1, h2]
  · simp [gatewayVoiceId, h1, h2]
  · simp [handlePayload, ht, h0]

/-- Witness for C1: a body with only a `speaker` hint resolves through the
voice map. -/
theorem gateway_voice_resolution_chain_witness :
    gatewayVoiceId ⟨"k", some "dflt", [("alice", "v9")], none, none, true, "*"⟩
      [("speaker", Json.str " Alice ")] = "v9" :=
  (gateway_voice_resolution_chain
    ⟨"k", some "dflt", [("alice", "v9")], none, none, true, "*"⟩
    (fun _ => ProviderResult.failure 0 "")
    [("speaker", Json.str " Alice ")]).2.1 (by decide) (by decide)

/-- Counterexample to C2 as stated: on the CLI path, a `--text-file` whose
contents strip to the empty string is forwarded to `synthesize_bytes` as
empty text. -/
theorem cli_empty_text_forwarded :
    cliRun { defaultArgs with voice_id := some "v1", text_file := some "t.txt" }
        "k" none [] (fun _ => "  \n ") none (fun _ => none) =
      .ok (⟨"k", "v1", "", none, some (Json.str "mp3_44100_128"), true, none⟩,
           []) ∧
    (⟨"k", "v1", "", none, some (Json.str "mp3_44100_128"), true, none⟩ :
      SynthArgs).text = "" :=
  ⟨rfl, rfl⟩

/-- Claim C2 (amended): on the gateway path, every `synthesize_bytes`
invocation carries a non-empty voice id and non-empty text; on the CLI
path the text argument can be empty when the text file or stdin strips to
empty. -/
theorem gateway_synth_invariant (cfg : ServerConfig)
    (provider : ProviderRequest → ProviderResult) (method : HttpMethod)
    (path raw : String) (jsonLoads : String → Option Json)
    (r : HttpResponse) (calls : List SynthArgs)
    (h : handleRequest cfg provider method path raw jsonLoads =
      some (r, calls)) :
    ∀ a ∈ calls, a.voice_id ≠ "" ∧ a.text ≠ "" := by
  intro a ha
  cases method with
  | OPTIONS =>
    simp only [handleRequest, Option.some.injEq, Prod.mk.injEq] at h
    rw [← h.2] at ha
    simp at ha
  | POST =>
    simp only [handleRequest] at h
    unfold do_POST at h
    split at h
    · simp only [Option.some.injEq, Prod.mk.injEq] at h
      rw [← h.2] at ha
      simp at ha
    · split at h
      · simp only [Option.some.injEq, Prod.mk.injEq] at h
        rw [← h.2] at ha
        simp at ha
      next fields _ =>
        simp only [Option.some.injEq] at h
        refine handlePayload_calls cfg provider fields a ?_
        rw [h]
        exact ha
      · exact absurd h (by simp)

/-- Witness for C2 (amended): a successful gateway synthesis records one
call, with non-empty voice id and text. -/
theorem gateway_synth_invariant_witness :
    (⟨"k", "v", "hi", none, none, true, none⟩ : SynthArgs).voice_id ≠ "" ∧
    (⟨"k", "v", "hi", none, none, true, none⟩ : SynthArgs).text ≠ "" :=
  gateway_synth_invariant ⟨"k", some "v", [], none, none, true, "*"⟩
    (fun _ => ProviderResult.success [1]) .POST "/tts" ""
    (fun s => if s = "\x7b\x7d" then some (Json.obj [("text", Json.str "hi")])
      else none)
    (send_audio ⟨"k", some "v", [], none, none, true, "*"⟩ [1])
    [⟨"k", "v", "hi", none, none, true, none⟩] rfl
    ⟨"k", "v", "hi", none, none, true, none⟩ (by simp)

/-- Claim C3: CLI voice resolution precedence, first match wins: the
explicit voice id, the environment default, name matching over the fetched
catalog when a name query is given, and otherwise the first catalog voice
(failing on an empty catalog), with a note naming the auto-selected
voice. -/
theorem cli_voice_resolution_precedence (args : CLIArgs)
    (env_voice_id : Option String) (catalog : List Voice) :
    (∀ v, args.voice_id = some v → v ≠ "" →
      resolve_voice_id args env_voice_id catalog = .ok (v, []))
    ∧ (strTruthy args.voice_id = false →
      ∀ e, env_voice_id = some e → e ≠ "" →
      resolve_voice_id args env_voice_id catalog = .ok (e, []))
    ∧ (strTruthy args.voice_id = false → strTruthy env_voice_id = false →
      ∀ q, args.voice_name = some q → q ≠ "" →
      resolve_voice_id args env_voice_id catalog =
        (match pick_voice_by_name catalog q with
         | .error e => .error e
         | .ok voice =>
           match voice.voice_id with
           | some id => .ok (id, [])
           | none => .error (.keyError "voice_id")))
    ∧ (strTruthy args.voice_id = false → strTruthy env_voice_id = false →
      strTruthy args.voice_name = false → catalog = [] →
      resolve_voice_id args env_voice_id catalog = .error .noVoices)
    ∧ (strTruthy args.voice_id = false → strTruthy env_voice_id = false →
      strTruthy args.voice_name = false →
      ∀ first rest, catalog = first :: rest →
      ∀ id, first.voice_id = some id → id ≠ "" →
      resolve_voice_id args env_voice_id catalog =
        .ok (id, ["Using first available voice: " ++ pyOrStr first.name "unknown"
          ++ " (" ++ id ++ ")"])) := by
  refine ⟨fun v hv hvne => ?_, fun h1 e he hene => ?_,
    fun h1 h2 q hq hqne => ?_, fun h1 h2 h3 hcat => ?_,
    fun h1 h2 h3 first rest hcat id hid hidne => ?_⟩
  · simp [resolve_voice_id, strTruthy, hv, hvne]
  · unfold resolve_voice_id
    rw [h1]
    simp [strTruthy, he, hene]
  · unfold resolve_voice_id
    rw [h1, h2]
    simp [strTruthy, hq, hqne]
  · unfold resolve_voice_id
    rw [h1, h2, h3]
    simp [hcat]
  · unfold resolve_voice_id
    rw [h1, h2, h3]
    simp [hcat, pyOrStr, hid, hidne]

/-- Witness for C3: an explicit voice id wins. -/
theorem cli_voice_resolution_precedence_witness :
    resolve_voice_id { defaultArgs with voice_id := some "vx" } none [] =
      .ok ("vx", []) :=
  (cli_voice_resolution_precedence
    { defaultArgs with voice_id := some "vx" } none []).1 "vx" rfl (by decide)

/-- Counterexample to C4 as stated: with no voice map and no default, the
body the claim names gets the voice-resolution 400, whose message does not
mention `voice_settings` — the `voice_settings` check runs only after a
voice id has resolved. -/
theorem voice_settings_check_after_resolution_cex :
    handlePayload ⟨"k", none, [], none, none, true, "*"⟩
        (fun _ => ProviderResult.failure 0 "")
        [("text", Json.str "hi"), ("voice_settings", Json.str "bad")] =
      (send_json ⟨"k", none, [], none, none, true, "*"⟩ 400
        (errObj noVoiceResolvedMsg), []) ∧
    strContains noVoiceResolvedMsg "voice_settings" = false :=
  ⟨rfl, by decide⟩

/-- Claim C4 (amended): the `voice_settings` type check runs after voice
resolution: when the text is non-empty and a voice id resolves, a present
non-mapping `voice_settings` yields a 400 naming `voice_settings` and the
provider is never called; when no voice id resolves, the 400 is the
voice-resolution error instead. -/
theorem gateway_bad_voice_settings (cfg : ServerConfig)
    (provider : ProviderRequest → ProviderResult)
    (fields : List (String × Json))
    (ht : jsonFieldStr fields "text" ≠ "")
    (hv : gatewayVoiceId cfg fields ≠ "")
    (hs : badVoiceSettings (pyGet fields "voice_settings") = true) :
    handlePayload cfg provider fields =
      (send_json cfg 400 (errObj "voice_settings must be an object"), []) := by
  simp [handlePayload, ht, hv, hs]

/-- Witness for C4 (amended): the claim's example body, with a default
voice configured, draws the `voice_settings` 400. -/
theorem gateway_bad_voice_settings_witness :
    handlePayload ⟨"k", some "v", [], none, none, true, "*"⟩
        (fun _ => ProviderResult.failure 0 "")
        [("text", Json.str "hi"), ("voice_settings", Json.str "bad")] =
      (send_json ⟨"k", some "v", [], none, none, true, "*"⟩ 400
        (errObj "voice_settings must be an object"), []) :=
  gateway_bad_voice_settings ⟨"k", some "v", [], none, none, true, "*"⟩
    (fun _ => ProviderResult.failure 0 "")
    [("text", Json.str "hi"), ("voice_settings", Json.str "bad")]
    (by decide) (by decide) (by decide)

/-- Claim C5: a POST /tts whose `text` field is absent, empty, or
whitespace-only after stripping gets 400 `{"error": "Missing text"}` and
no `synthesize_bytes` call is made. -/
theorem gateway_missing_text (cfg : ServerConfig)
    (provider : ProviderRequest → ProviderResult)
    (fields : List (String × Json))
    (h : pyGet fields "text" = none ∨
      ∃ s, pyGet fields "text" = some (Json.str s) ∧ pyStrip s = "") :
    handlePayload cfg provider fields =
      (send_json cfg 400 (errObj "Missing text"), []) := by
  have htext : jsonFieldStr fields "text" = "" := by
    rcases h with h | ⟨s, hs, hstrip⟩
    · simp [jsonFieldStr, h, pyOrJ, pyStr]
      rfl
    · by_cases hs0 : s = ""
      · subst hs0
        simp [jsonFieldStr, hs, pyOrJ, pyTruthy, pyStr]
        rfl
      · simp [jsonFieldStr, hs, pyOrJ, pyTruthy, pyStr, hs0, hstrip]
  simp [handlePayload, htext]

/-- Witness for C5: whitespace-only text is refused. -/
theorem gateway_missing_text_witness :
    handlePayload ⟨"k", some "v", [], none, none, true, "*"⟩
        (fun _ => ProviderResult.failure 0 "") [("text", Json.str "  ")] =
      (send_json ⟨"k", some "v", [], none, none, true, "*"⟩ 400
        (errObj "Missing text"), []) :=
  gateway_missing_text ⟨"k", some "v", [], none, none, true, "*"⟩
    (fun _ => ProviderResult.failure 0 "") [("text", Json.str "  ")]
    (Or.inr ⟨"  ", rfl, rfl⟩)

/-- Counterexample to C6 as stated: `"ada"` is not a substring of
`"nadia"`, so against a catalog holding `Adam` and `Nadia` the query
`"ada"` matches `Adam` alone and resolution succeeds instead of failing as
ambiguous. -/
theorem ada_matches_only_adam :
    pick_voice_by_name
        [⟨some "Adam", some "a1", none⟩, ⟨some "Nadia", some "n1", none⟩]
        "ada" = .ok ⟨some "Adam", some "a1", none⟩ ∧
    strContains (pyLower "Nadia") "ada" = false :=
  ⟨rfl, by decide⟩

/-- Claim C6 (amended): name picking strips and lower-cases the query and
keeps every voice whose name contains it case-insensitively; zero matches
fail with a no-match error naming the query, one match is returned, two or
more fail with an ambiguity error listing exactly the matched voices.  A
two-letter query such as `"ad"` is ambiguous between `Adam` and `Nadia`;
`"ada"` matches only `Adam`. -/
theorem pick_voice_by_name_spec (voices : List Voice) (name_query : String) :
    (voices.filter (fun v => strContains (pyLower (pyOrStr v.name ""))
        (pyLower (pyStrip name_query))) = [] →
      pick_voice_by_name voices name_query = .error (.noMatch name_query))
    ∧ (∀ v, voices.filter (fun v => strContains (pyLower (pyOrStr v.name ""))
        (pyLower (pyStrip name_query))) = [v] →
      pick_voice_by_name voices name_query = .ok v)
    ∧ (∀ v w rest, voices.filter (fun v =>
        strContains (pyLower (pyOrStr v.name "")) (pyLower (pyStrip name_query)))
          = v :: w :: rest →
      pick_voice_by_name voices name_query =
        .error (.ambiguous (v :: w :: rest))) := by
  refine ⟨fun h => ?_, fun v h => ?_, fun v w rest h => ?_⟩ <;>
    simp [pick_voice_by_name, h]

/-- Witness for C6 (amended): the query `"ad"` is ambiguous between `Adam`
and `Nadia`. -/
theorem pick_voice_by_name_spec_witness :
    pick_voice_by_name
        [⟨some "Adam", some "a1", none⟩, ⟨some "Nadia", some "n1", none⟩]
        "ad" =
      .error (.ambiguous
        [⟨some "Adam", some "a1", none⟩, ⟨some "Nadia", some "n1", none⟩]) :=
  (pick_voice_by_name_spec
    [⟨some "Adam", some "a1", none⟩, ⟨some "Nadia", some "n1", none⟩]
    "ad").2.2 ⟨some "Adam", some "a1", none⟩ ⟨some "Nadia", some "n1", none⟩
    [] (by decide)

set_option maxHeartbeats 1000000 in
/-- Claim C7: the provider call built by `synthesize_bytes` always carries
`text` in the JSON body; `model_id` is in the body only when non-empty;
`voice_settings` only when a non-empty mapping; `output_format` is a query
parameter only when specified (and non-empty); and the
`enable_logging=false` query parameter is present exactly when logging is
disabled. -/
theorem synthesize_bytes_request_shape (api_key voice_id text : String)
    (model_id : Option String) (output_format : Option String)
    (enable_logging : Bool)
    (voice_settings : Option (List (String × Json))) :
    (buildProviderRequest ⟨api_key, voice_id, text, model_id.map Json.str,
        output_format.map Json.str, enable_logging,
        voice_settings.map Json.obj⟩).payload.lookup "text" =
      some (Json.str text)
    ∧ (((buildProviderRequest ⟨api_key, voice_id, text,
        model_id.map Json.str, output_format.map Json.str, enable_logging,
        voice_settings.map Json.obj⟩).payload.lookup "model_id").isSome ↔
      ∃ m, model_id = some m ∧ m ≠ "")
    ∧ (((buildProviderRequest ⟨api_key, voice_id, text,
        model_id.map Json.str, output_format.map Json.str, enable_logging,
        voice_settings.map Json.obj⟩).payload.lookup "voice_settings").isSome ↔
      ∃ s, voice_settings = some s ∧ s ≠ [])
    ∧ (((buildProviderRequest ⟨api_key, voice_id, text,
        model_id.map Json.str, output_format.map Json.str, enable_logging,
        voice_settings.map Json.obj⟩).params.lookup "output_format").isSome ↔
      ∃ f, output_format = some f ∧ f ≠ "")
    ∧ ((buildProviderRequest ⟨api_key, voice_id, text,
        model_id.map Json.str, output_format.map Json.str, enable_logging,
        voice_settings.map Json.obj⟩).params.lookup "enable_logging" =
      if enable_logging then none else some (Json.str "false")) := by
  cases model_id with
  | none =>
    cases output_format with
    | none =>
      cases voice_settings with
      | none =>
        cases enable_logging <;>
          simp [buildProviderRequest, pyTruthy, List.lookup]
      | some s =>
        by_cases hs : s = [] <;>
          cases enable_logging <;>
            simp [buildProviderRequest, pyTruthy, hs, List.isEmpty_iff,
              List.lookup]
    | some f =>
      by_cases hf : f = "" <;>
        cases voice_settings with
        | none =>
          cases enable_logging <;>
            simp [buildProviderRequest, pyTruthy, hf, List.lookup]
        | some s =>
          by_cases hs : s = [] <;>
            cases enable_logging <;>
              simp [buildProviderRequest, pyTruthy, hf, hs,
                List.isEmpty_iff, List.lookup]
  | some m =>
    by_cases hm : m = "" <;>
      cases output_format with
      | none =>
        cases voice_settings with
        | none =>
          cases enable_logging <;>
            simp [buildProviderRequest, pyTruthy, hm, List.lookup]
        | some s =>
          by_cases hs : s = [] <;>
            cases enable_logging <;>
              simp [buildProviderRequest, pyTruthy, hm, hs,
                List.isEmpty_iff, List.lookup]
      | some f =>
        by_cases hf : f = "" <;>
          cases voice_settings with
          | none =>
            cases enable_logging <;>
              simp [buildProviderRequest, pyTruthy, hm, hf, List.lookup]
          | some s =>
            by_cases hs : s = [] <;>
              cases enable_logging <;>
                simp [buildProviderRequest, pyTruthy, hm, hf, hs,
                  List.isEmpty_iff, List.lookup]

/-- Claim C8: POSTs to any path other than `/tts` get a 404 with the
`{"error": "Not found"}` envelope, while an OPTIONS request short-circuits
to a 204 carrying exactly the CORS allow-origin, allowed-methods and
allowed-headers headers, with no body and no synthesis call. -/
theorem gateway_routing (cfg : ServerConfig)
    (provider : ProviderRequest → ProviderResult) (path raw : String)
    (jsonLoads : String → Option Json) :
    (path ≠ "/tts" →
      do_POST cfg provider path raw jsonLoads =
        some (send_json cfg 404 (errObj "Not found"), []) ∧
      errorMessage (send_json cfg 404 (errObj "Not found")) =
        some "Not found")
    ∧ (handleRequest cfg provider .OPTIONS path raw jsonLoads =
        some (do_OPTIONS cfg, [])
      ∧ (do_OPTIONS cfg).status = 204
      ∧ (do_OPTIONS cfg).headers =
          [("Access-Control-Allow-Origin", cfg.cors_origin),
           ("Access-Control-Allow-Methods", "POST, OPTIONS"),
           ("Access-Control-Allow-Headers", "Content-Type")]
      ∧ (do_OPTIONS cfg).body = .empty) := by
  refine ⟨fun h => ⟨?_, rfl⟩, rfl, rfl, rfl, rfl⟩
  unfold do_POST
  rw [if_pos h]

/-- Witness for C8: a POST to `/voices` is not found. -/
theorem gateway_routing_witness :
    do_POST ⟨"k", none, [], none, none, true, "*"⟩
        (fun _ => ProviderResult.failure 0 "") "/voices" "" (fun _ => none) =
      some (send_json ⟨"k", none, [], none, none, true, "*"⟩ 404
        (errObj "Not found"), []) :=
  ((gateway_routing ⟨"k", none, [], none, none, true, "*"⟩
    (fun _ => ProviderResult.failure 0 "") "/voices" ""
    (fun _ => none)).1 (by decide)).1

/-- Claim C9: a POST /tts with an empty body is parsed as the empty JSON
object (the raw body is replaced by the literal `"{}"` before
`json.loads`), so it fails with `Missing text`, not `Invalid JSON`. -/
theorem empty_body_missing_text (cfg : ServerConfig)
    (provider : ProviderRequest → ProviderResult)
    (jsonLoads : String → Option Json)
    (hp : jsonLoads "\x7b\x7d" = some (Json.obj [])) :
    do_POST cfg provider "/tts" "" jsonLoads =
      some (send_json cfg 400 (errObj "Missing text"), []) ∧
    errorMessage (send_json cfg 400 (errObj "Missing text")) =
      some "Missing text" ∧
    errorMessage (send_json cfg 400 (errObj "Missing text")) ≠
      some "Invalid JSON" := by
  refine ⟨?_, rfl, ?_⟩
  · have hpost : do_POST cfg provider "/tts" "" jsonLoads =
        (match jsonLoads "\x7b\x7d" with
         | none => some (send_json cfg 400 (errObj "Invalid JSON"), [])
         | some (Json.obj fields) => some (handlePayload cfg provider fields)
         | some _ => none) := rfl
    rw [hpost, hp]
    rfl
  · intro hbad
    rw [show errorMessage (send_json cfg 400 (errObj "Missing text")) =
      some "Missing text" from rfl] at hbad
    exact absurd hbad (by decide)

/-- Witness for C9: a concrete `json.loads` oracle parsing `"{}"` to the
empty object. -/
theorem empty_body_missing_text_witness :
    do_POST ⟨"k", none, [], none, none, true, "*"⟩
        (fun _ => ProviderResult.failure 0 "") "/tts" ""
        (fun s => if s = "\x7b\x7d" then some (Json.obj []) else none) =
      some (send_json ⟨"k", none, [], none, none, true, "*"⟩ 400
        (errObj "Missing text"), []) :=
  (empty_body_missing_text ⟨"k", none, [], none, none, true, "*"⟩
    (fun _ => ProviderResult.failure 0 "")
    (fun s => if s = "\x7b\x7d" then some (Json.obj []) else none) rfl).1

/-- Claim C10: in the gateway's speaker-name extraction the `name` field
wins, and the `speaker` field is consulted only when `name` is absent or
empty: a truthy `name` string fixes the key regardless of `speaker`, and
with `name` absent or empty the key comes from `speaker` (or is empty when
both are). -/
theorem name_over_speaker (fields : List (String × Json)) :
    (∀ s, pyGet fields "name" = some (Json.str s) → s ≠ "" →
      gatewayName fields = pyStrip s)
    ∧ ((pyGet fields "name" = none ∨
        pyGet fields "name" = some (Json.str "")) →
      ∀ t, pyGet fields "speaker" = some (Json.str t) → t ≠ "" →
      gatewayName fields = pyStrip t)
    ∧ ((pyGet fields "name" = none ∨
        pyGet fields "name" = some (Json.str "")) →
      (pyGet fields "speaker" = none ∨
        pyGet fields "speaker" = some (Json.str "")) →
      gatewayName fields = "") := by
  refine ⟨fun s hs hsne => ?_, fun hn t ht htne => ?_, fun hn hsp => ?_⟩
  · simp [gatewayName, hs, pyOrJ, pyTruthy, hsne, pyStr]
  · rcases hn with hn | hn <;>
      simp [gatewayName, hn, ht, pyOrJ, pyTruthy, htne, pyStr]
  · rcases hn with hn | hn <;> rcases hsp with hsp | hsp <;>
      (simp [gatewayName, hn, hsp, pyOrJ, pyTruthy, pyStr]; rfl)

/-- Witness for C10: a truthy `name` shadows the `speaker` field. -/
theorem name_over_speaker_witness :
    gatewayName [("name", Json.str "Ann"), ("speaker", Json.str "Bob")] =
      pyStrip "Ann" :=
  (name_over_speaker
    [("name", Json.str "Ann"), ("speaker", Json.str "Bob")]).1 "Ann" rfl
    (by decide)
